import Mathlib

/-!
Verification of the nba-bets backend's description-derivation and
update-reconciliation logic.

The definitions below are a shallow embedding of
`backend/app/routers/bets.py` and `backend/app/models/bet.py`:

* Python `str | None` fields become `Option String`; Python truthiness on
  such a field (`if s:`) becomes `pyTruthyStr`.
* `Decimal` fields become `Rat` (their only use in the verified logic is
  string interpolation, abstracted by `pyStr`).
* The database session is modelled as an association list `Db` from ids to
  records; an HTTP 404 is an `Except.error` carrying status and detail.
* Pydantic's `model_dump(exclude_unset=True)` on `BetUpdate` is modelled by
  wrapping each payload field in an outer `Option` (absent = not in the
  payload); fields that are nullable on the `Bet` table additionally keep
  their inner `Option` so that an explicit JSON `null` is representable.
  Fields that are NOT NULL on the table (`bet_type`, `team`, `opponent`,
  `wager_amount`, `odds`, `result`) carry only values: patching them to
  `null` makes the commit fail the NOT NULL constraint, so no state is
  persisted, which is outside the persisted-state properties proved here.
* Timestamp fields (`bet_placed_date`, `game_date`, `created_at`,
  `updated_at`) play no role in any verified property and are omitted from
  the record.
-/

namespace NbaBets

/-- `BetType` enum from `app/models/bet.py`. -/
inductive BetType where
  | player_prop
  | team_prop
  | spread
  | moneyline
deriving DecidableEq, Repr

/-- The `.value` string of each `BetType` member. -/
def BetType.value : BetType → String
  | .player_prop => "player_prop"
  | .team_prop => "team_prop"
  | .spread => "spread"
  | .moneyline => "moneyline"

/-- `BetResult` enum from `app/models/bet.py`. -/
inductive BetResult where
  | win
  | loss
  | push
  | pending
  | cancelled
deriving DecidableEq, Repr

/-- `PropType` enum from `app/models/bet.py`. -/
inductive PropType where
  | points
  | rebounds
  | assists
  | steals
  | blocks
  | turnovers
  | three_pointers
  | pra
  | field_goals_made
  | free_throws_made
  | double_double
  | triple_double
  | pr
  | pa
  | ra
deriving DecidableEq, Repr

/-- The `.value` string of each `PropType` member (its short
enumeration-value form; note `THREE_POINTERS.value = "threes"`). -/
def PropType.value : PropType → String
  | .points => "points"
  | .rebounds => "rebounds"
  | .assists => "assists"
  | .steals => "steals"
  | .blocks => "blocks"
  | .turnovers => "turnovers"
  | .three_pointers => "threes"
  | .pra => "pra"
  | .field_goals_made => "field_goals_made"
  | .free_throws_made => "free_throws_made"
  | .double_double => "double_double"
  | .triple_double => "triple_double"
  | .pr => "pr"
  | .pa => "pa"
  | .ra => "ra"

/-- Python truthiness of a `str | None` value: `None` and `""` are falsy. -/
def pyTruthyStr : Option String → Bool
  | none => false
  | some s => !s.isEmpty

/-- Python `str(...)` of a `Decimal | None` value, used only inside the
model-level description f-string; the exact digit rendering of the decimal
is irrelevant to every verified property, so `Rat`'s printer stands in. -/
def pyStr : Option Rat → String
  | none => "None"
  | some q => toString q

/-- `generate_description` from `app/routers/bets.py` (lines 21-45):
ordered rule chain, first match wins, with Python truthiness on the
optional string arguments and `prop_type` normalised to its `.value`. -/
def generate_description (bet_type : BetType) (team : Option String)
    (player_name : Option String) (prop_type : Option PropType) : String :=
  if bet_type = .player_prop ∧ pyTruthyStr player_name ∧
      pyTruthyStr (prop_type.map PropType.value) then
    player_name.getD "" ++ "-" ++ (prop_type.map PropType.value).getD ""
  else if bet_type = .team_prop ∧ pyTruthyStr team ∧
      pyTruthyStr (prop_type.map PropType.value) then
    team.getD "" ++ "-" ++ (prop_type.map PropType.value).getD ""
  else if (bet_type = .spread ∨ bet_type = .moneyline) ∧ pyTruthyStr team then
    team.getD "" ++ "-" ++ bet_type.value
  else if pyTruthyStr player_name then
    player_name.getD ""
  else if pyTruthyStr team then
    team.getD ""
  else
    "Unknown"

/-- The persisted `Bet` row (`app/models/bet.py`, class `Bet`), restricted
to the fields the verified logic reads or writes.  `team` and `opponent`
are NOT NULL columns, hence plain `String` (possibly empty); the remaining
optional columns are nullable. -/
structure Bet where
  bet_type : BetType
  team : String
  opponent : String
  wager_amount : Rat
  odds : Int
  result : BetResult := .pending
  payout : Option Rat := none
  notes : Option String := none
  player_name : Option String := none
  prop_type : Option PropType := none
  description : Option String := none
  prop_line : Option Rat := none
  over_under : Option String := none
  actual_value : Option Rat := none
deriving DecidableEq, Repr

/-- `Bet._generate_description` from `app/models/bet.py` (lines 81-91):
the model-level fallback rules, which differ from the router's
`generate_description`. -/
def Bet.generate_description_model (b : Bet) : String :=
  if b.bet_type = .player_prop ∧ pyTruthyStr b.player_name then
    b.player_name.getD ""
  else if b.bet_type = .team_prop ∧ ¬b.team.isEmpty then
    b.team
  else if b.bet_type = .spread ∧ ¬b.team.isEmpty then
    b.team ++ " " ++ pyStr b.prop_line
  else if b.bet_type = .moneyline ∧ ¬b.team.isEmpty then
    b.team
  else if ¬b.team.isEmpty then
    b.team
  else
    "Unknown"

/-- `Bet.__init__` from `app/models/bet.py` (lines 75-79): after the field
assignment `d`, an absent or empty `description` is replaced by the
model-level derivation. -/
def Bet.init (d : Bet) : Bet :=
  if pyTruthyStr d.description then d
  else { d with description := some d.generate_description_model }

/-- The `BetCreate` payload (`app/models/bet.py`): body of POST and PUT.
`team`/`opponent` are required strings; timestamps are omitted as above. -/
structure BetCreate where
  bet_type : BetType
  team : String
  opponent : String
  wager_amount : Rat
  odds : Int
  player_name : Option String := none
  prop_type : Option PropType := none
  description : Option String := none
  prop_line : Option Rat := none
  over_under : Option String := none
  result : BetResult := .pending
  actual_value : Option Rat := none
  payout : Option Rat := none
  notes : Option String := none
deriving DecidableEq, Repr

/-- The `BetUpdate` payload under `model_dump(exclude_unset=True)`: an
outer `none` means the field is absent from the payload; for nullable
columns `some none` is an explicit JSON `null`. -/
structure BetUpdate where
  bet_type : Option BetType := none
  team : Option String := none
  opponent : Option String := none
  player_name : Option (Option String) := none
  prop_type : Option (Option PropType) := none
  description : Option (Option String) := none
  prop_line : Option (Option Rat) := none
  over_under : Option (Option String) := none
  wager_amount : Option Rat := none
  odds : Option Int := none
  result : Option BetResult := none
  actual_value : Option (Option Rat) := none
  payout : Option (Option Rat) := none
  notes : Option (Option String) := none
deriving DecidableEq, Repr

/-- The bet store: id ↦ record, modelling the `bets` table. -/
abbrev Db := List (Nat × Bet)

/-- `db.get(Bet, bet_id)`. -/
def dbGet (db : Db) (id : Nat) : Option Bet :=
  (List.find? (fun e => e.1 = id) db).map Prod.snd

/-- Overwrite the record stored at `id` (the committed result of mutating
the session-attached object). -/
def dbSet (db : Db) (id : Nat) (b : Bet) : Db :=
  List.map (fun e => if e.1 = id then (e.1, b) else e) db

/-- A fresh primary key for an insert. -/
def freshId (db : Db) : Nat :=
  List.foldr (fun e m => max e.1 m) 0 db + 1

/-- An `HTTPException`: status code and human-readable detail. -/
structure Err where
  status : Nat
  detail : String
deriving DecidableEq, Repr

/-- `HTTPException(status_code=404, detail="Bet not found")`. -/
def notFound : Err := ⟨404, "Bet not found"⟩

/-- The setattr loop of `update_bet` (lines 125-126): each field present in
`model_dump(exclude_unset=True)` overwrites the record's value. -/
def applyUpdate (b : Bet) (u : BetUpdate) : Bet :=
  { bet_type := u.bet_type.getD b.bet_type
    team := u.team.getD b.team
    opponent := u.opponent.getD b.opponent
    wager_amount := u.wager_amount.getD b.wager_amount
    odds := u.odds.getD b.odds
    result := u.result.getD b.result
    payout := u.payout.getD b.payout
    notes := u.notes.getD b.notes
    player_name := u.player_name.getD b.player_name
    prop_type := u.prop_type.getD b.prop_type
    description := u.description.getD b.description
    prop_line := u.prop_line.getD b.prop_line
    over_under := u.over_under.getD b.over_under
    actual_value := u.actual_value.getD b.actual_value }

/-- `create_bet` (`app/routers/bets.py` lines 49-65): derive the
description when the payload's is absent or empty, then run the `Bet`
constructor and insert under a fresh id.  Returns the new store and the
persisted record. -/
def create_bet (db : Db) (p : BetCreate) : Db × Bet :=
  let desc : Option String :=
    if pyTruthyStr p.description then p.description
    else some (generate_description p.bet_type (some p.team) p.player_name p.prop_type)
  let db_bet : Bet := Bet.init
    { bet_type := p.bet_type, team := p.team, opponent := p.opponent
      wager_amount := p.wager_amount, odds := p.odds
      player_name := p.player_name, prop_type := p.prop_type
      description := desc, prop_line := p.prop_line, over_under := p.over_under
      result := p.result, actual_value := p.actual_value, payout := p.payout
      notes := p.notes }
  (db ++ [(freshId db, db_bet)], db_bet)

/-- `get_bet` (lines 99-105): 404 when the id is absent. -/
def get_bet (db : Db) (id : Nat) : Except Err Bet :=
  match dbGet db id with
  | none => .error notFound
  | some b => .ok b

/-- `update_bet` (lines 108-139): PATCH.  Applies the set fields, then
recomputes the description from the post-update fields exactly when some
description-affecting field is in the payload and `description` itself is
not. -/
def update_bet (db : Db) (id : Nat) (u : BetUpdate) : Except Err (Bet × Db) :=
  match dbGet db id with
  | none => .error notFound
  | some bet =>
    let description_fields_changed :=
      u.bet_type.isSome ∨ u.team.isSome ∨ u.player_name.isSome ∨ u.prop_type.isSome
    let bet1 := applyUpdate bet u
    let bet2 :=
      if description_fields_changed ∧ u.description = none then
        { bet1 with description := some (generate_description bet1.bet_type
            (some bet1.team) bet1.player_name bet1.prop_type) }
      else bet1
    .ok (bet2, dbSet db id bet2)

/-- `replace_bet` (lines 142-168): PUT.  Create-style derivation on the
incoming payload's own fields, then every payload field overwrites the
record. -/
def replace_bet (db : Db) (id : Nat) (p : BetCreate) : Except Err (Bet × Db) :=
  match dbGet db id with
  | none => .error notFound
  | some bet =>
    let desc : Option String :=
      if pyTruthyStr p.description then p.description
      else some (generate_description p.bet_type (some p.team) p.player_name p.prop_type)
    let bet2 : Bet :=
      { bet with
        bet_type := p.bet_type
        team := p.team
        opponent := p.opponent
        wager_amount := p.wager_amount
        odds := p.odds
        player_name := p.player_name
        prop_type := p.prop_type
        description := desc
        prop_line := p.prop_line
        over_under := p.over_under
        result := p.result
        actual_value := p.actual_value
        payout := p.payout
        notes := p.notes }
    .ok (bet2, dbSet db id bet2)

/-- `delete_bet` (lines 171-180): 404 when absent, else remove the row. -/
def delete_bet (db : Db) (id : Nat) : Except Err (String × Db) :=
  match dbGet db id with
  | none => .error notFound
  | some _ => .ok ("Bet deleted successfully", List.filter (fun e => !(e.1 = id : Bool)) db)

/-- The store state after an operation: an `HTTPException` aborts the
request before any commit, leaving the store as it was. -/
def dbAfter {α : Type} (r : Except Err (α × Db)) (db : Db) : Db :=
  match r with
  | .ok (_, db') => db'
  | .error _ => db

/-- One `player_bets` / `team_bets` block of the analytics summary. -/
structure GroupStats where
  total : Nat
  wins : Nat
  losses : Nat
  win_rate : Rat
deriving DecidableEq, Repr

/-- The response of `GET /bets/analytics/summary`. -/
structure Summary where
  total_bets : Nat
  total_wins : Nat
  total_losses : Nat
  win_rate : Rat
  player_bets : GroupStats
  team_bets : GroupStats
deriving DecidableEq, Repr

/-- Python's `round(x, 2)`: round to two decimal places, ties to even
(IEEE-754 representation artefacts of the intermediate float are
abstracted away; the quantities are modelled exactly as rationals). -/
def pyRound2 (q : Rat) : Rat :=
  let n : Int := ⌊q * 100⌋
  let f : Rat := q * 100 - n
  let r : Int :=
    if f < 1 / 2 then n
    else if 1 / 2 < f then n + 1
    else if n % 2 = 0 then n else n + 1
  (r : Rat) / 100

/-- `get_bet_summary` (`app/routers/bets.py` lines 184-269): the counts
are `COUNT` queries with the code's `where` clauses, the win rates the
code's conditional ratio expressions rounded to two decimals. -/
def get_bet_summary (db : Db) : Summary :=
  let bets := List.map Prod.snd db
  let total_bets := bets.length
  let total_wins := List.countP (fun b => decide (b.result = BetResult.win)) bets
  let total_losses := List.countP (fun b => decide (b.result = BetResult.loss)) bets
  let player_total := List.countP (fun b => decide (b.bet_type = BetType.player_prop)) bets
  let player_wins := List.countP
    (fun b => decide (b.bet_type = BetType.player_prop ∧ b.result = BetResult.win)) bets
  let player_losses := List.countP
    (fun b => decide (b.bet_type = BetType.player_prop ∧ b.result = BetResult.loss)) bets
  let team_total := List.countP (fun b => decide (b.bet_type ≠ BetType.player_prop)) bets
  let team_wins := List.countP
    (fun b => decide (b.bet_type ≠ BetType.player_prop ∧ b.result = BetResult.win)) bets
  let team_losses := List.countP
    (fun b => decide (b.bet_type ≠ BetType.player_prop ∧ b.result = BetResult.loss)) bets
  let completed_bets := total_wins + total_losses
  let win_rate : Rat :=
    if completed_bets > 0 then (total_wins : Rat) / (completed_bets : Rat) * 100 else 0
  { total_bets := total_bets
    total_wins := total_wins
    total_losses := total_losses
    win_rate := pyRound2 win_rate
    player_bets :=
      { total := player_total
        wins := player_wins
        losses := player_losses
        win_rate := pyRound2 (if player_wins + player_losses > 0 then
          (player_wins : Rat) / ((player_wins + player_losses : Nat) : Rat) * 100 else 0) }
    team_bets :=
      { total := team_total
        wins := team_wins
        losses := team_losses
        win_rate := pyRound2 (if team_wins + team_losses > 0 then
          (team_wins : Rat) / ((team_wins + team_losses : Nat) : Rat) * 100 else 0) } }

/-- Modelled from the spec's words (§6): `wins / (wins + losses) * 100`
rounded to 2 decimal places, `0` when the denominator is `0`, where wins
and losses count only bets whose result is `win` resp. `loss` (pushes,
pending and cancelled bets are in neither count). -/
def spec_win_rate (bets : List Bet) : Rat :=
  let wins := (List.filter (fun b => decide (b.result = BetResult.win)) bets).length
  let losses := (List.filter (fun b => decide (b.result = BetResult.loss)) bets).length
  if wins + losses = 0 then 0
  else pyRound2 ((wins : Rat) / ((wins + losses : Nat) : Rat) * 100)

/-- Modelled from the spec's words (§4.1): the six-rule derivation chain,
first match wins; "non-empty" on an optional string means present and not
`""` (written `o.getD "" ≠ ""`), and a present `prop_type` is interpolated
in its short enumeration-value form. -/
def spec_derive (bet_type : BetType) (team : Option String)
    (player_name : Option String) (prop_type : Option PropType) : String :=
  if bet_type = .player_prop ∧ player_name.getD "" ≠ "" ∧ prop_type ≠ none then
    player_name.getD "" ++ "-" ++ (prop_type.map PropType.value).getD ""
  else if bet_type = .team_prop ∧ team.getD "" ≠ "" ∧ prop_type ≠ none then
    team.getD "" ++ "-" ++ (prop_type.map PropType.value).getD ""
  else if (bet_type = .spread ∨ bet_type = .moneyline) ∧ team.getD "" ≠ "" then
    team.getD "" ++ "-" ++ bet_type.value
  else if player_name.getD "" ≠ "" then
    player_name.getD ""
  else if team.getD "" ≠ "" then
    team.getD ""
  else
    "Unknown"

/-! ## Sample records (concrete inputs for witnesses and counterexamples) -/

/-- A stored player-prop record with a well-formed derived description. -/
def sampleBet : Bet :=
  { bet_type := .player_prop
    team := "LAL"
    opponent := "BOS"
    wager_amount := 50
    odds := -110
    player_name := some "LeBron James"
    prop_type := some .points
    description := some "LeBron James-points"
    prop_line := some (55 / 2)
    over_under := some "over" }

/-- A one-record store holding `sampleBet` under id 1. -/
def sampleDb : Db := [(1, sampleBet)]

/-- Constructor data for a spread bet with no description supplied. -/
def sampleSpreadInit : Bet :=
  { bet_type := .spread
    team := "MIL"
    opponent := "CHI"
    wager_amount := 10
    odds := -110
    prop_line := some (11 / 2) }

/-- A create payload for a player prop with no description supplied. -/
def sampleCreate : BetCreate :=
  { bet_type := .player_prop
    team := "LAL"
    opponent := "BOS"
    wager_amount := 50
    odds := -110
    player_name := some "LeBron James"
    prop_type := some .points }

/-- A patch changing only the player name. -/
def davisPatch : BetUpdate := { player_name := some (some "Anthony Davis") }

/-- A patch supplying `description` as the explicit empty string and
nothing else. -/
def blankDescPatch : BetUpdate := { description := some (some "") }

/-- A patch supplying `description` as the explicit empty string together
with a team change. -/
def blankDescTeamPatch : BetUpdate :=
  { team := some "MIA", description := some (some "") }

/-- A patch supplying only an explicit non-empty description. -/
def customDescPatch : BetUpdate := { description := some (some "Custom label") }

/-- A patch touching only the result field. -/
def resultPatch : BetUpdate := { result := some .win }

/-- `sampleBet` after `blankDescPatch`. -/
def sampleBetBlankDesc : Bet := { sampleBet with description := some "" }

/-- `sampleBet` after `blankDescTeamPatch`. -/
def sampleBetBlankDescTeam : Bet :=
  { sampleBet with team := "MIA", description := some "" }

/-- `sampleBet` after `customDescPatch`. -/
def sampleBetCustomDesc : Bet := { sampleBet with description := some "Custom label" }

/-- `sampleCreate` with an explicit non-empty description. -/
def customCreate : BetCreate := { sampleCreate with description := some "Custom label" }

/-- `sampleCreate` with an explicit empty-string description. -/
def blankCreate : BetCreate := { sampleCreate with description := some "" }

/-- `sampleBet` after `resultPatch`. -/
def sampleBetWin : Bet := { sampleBet with result := .win }

/-- The record produced by replacing any stored bet with `sampleCreate`
(description derived). -/
def replacedSampleBet : Bet :=
  { bet_type := .player_prop
    team := "LAL"
    opponent := "BOS"
    wager_amount := 50
    odds := -110
    player_name := some "LeBron James"
    prop_type := some .points
    description := some "LeBron James-points" }

/-- The record produced by replacing any stored bet with `customCreate`. -/
def replacedCustomBet : Bet :=
  { bet_type := .player_prop
    team := "LAL"
    opponent := "BOS"
    wager_amount := 50
    odds := -110
    player_name := some "LeBron James"
    prop_type := some .points
    description := some "Custom label" }

/-! ## Helper lemmas -/

theorem pyTruthyStr_eq_getD (o : Option String) :
    pyTruthyStr o = true ↔ Option.getD o "" ≠ "" := by
  cases o with
  | none => simp [pyTruthyStr]
  | some s => simp [pyTruthyStr, Bool.eq_false_iff, String.isEmpty_iff]

theorem propType_value_ne_empty (p : PropType) : PropType.value p ≠ "" := by
  cases p <;> decide

theorem betType_value_ne_empty (bt : BetType) : BetType.value bt ≠ "" := by
  cases bt <;> decide

theorem pyTruthyStr_map_value (prop_type : Option PropType) :
    pyTruthyStr (Option.map PropType.value prop_type) = true ↔ prop_type ≠ none := by
  cases prop_type with
  | none => simp [pyTruthyStr]
  | some p =>
    simp [pyTruthyStr, Bool.eq_false_iff, String.isEmpty_iff, propType_value_ne_empty p]

theorem str_append_ne_empty (s t : String) (h : t ≠ "") : s ++ t ≠ "" := by
  intro hc
  apply h
  apply String.ext
  have hd := congrArg String.data hc
  rw [String.data_append] at hd
  have : t.data = [] := (List.append_eq_nil.mp hd).2
  simpa using this

theorem str_append_ne_empty_left (s t : String) (h : s ≠ "") : s ++ t ≠ "" := by
  intro hc
  apply h
  apply String.ext
  have hd := congrArg String.data hc
  rw [String.data_append] at hd
  have : s.data = [] := (List.append_eq_nil.mp hd).1
  simpa using this

theorem not_isEmpty_ne (s : String) (h : ¬s.isEmpty = true) : s ≠ "" :=
  fun hc => h ((String.isEmpty_iff s).mpr hc)

theorem ne_not_isEmpty (s : String) (h : s ≠ "") : ¬s.isEmpty = true :=
  fun hc => h ((String.isEmpty_iff s).mp hc)

theorem map_value_getD_ne_empty (pt : Option PropType) (h : pt ≠ none) :
    Option.getD (Option.map PropType.value pt) "" ≠ "" := by
  cases pt with
  | none => simp at h
  | some p => simpa using propType_value_ne_empty p

theorem map_value_getD_ne_iff (pt : Option PropType) :
    Option.getD (Option.map PropType.value pt) "" ≠ "" ↔ pt ≠ none := by
  cases pt with
  | none => simp
  | some p => simpa using propType_value_ne_empty p

theorem generate_description_ne_empty (bet_type : BetType) (team player_name : Option String)
    (prop_type : Option PropType) :
    generate_description bet_type team player_name prop_type ≠ "" := by
  unfold generate_description
  split_ifs with h1 h2 h3 h4 h5
  · exact str_append_ne_empty _ _
      (map_value_getD_ne_empty _ ((pyTruthyStr_map_value _).mp h1.2.2))
  · exact str_append_ne_empty _ _
      (map_value_getD_ne_empty _ ((pyTruthyStr_map_value _).mp h2.2.2))
  · exact str_append_ne_empty _ _ (betType_value_ne_empty _)
  · exact (pyTruthyStr_eq_getD _).mp h4
  · exact (pyTruthyStr_eq_getD _).mp h5
  · decide

theorem pyTruthyStr_some_generate (bet_type : BetType) (team player_name : Option String)
    (prop_type : Option PropType) :
    pyTruthyStr (some (generate_description bet_type team player_name prop_type)) = true := by
  have h := generate_description_ne_empty bet_type team player_name prop_type
  simp only [pyTruthyStr, Bool.not_eq_true']
  rw [Bool.eq_false_iff]
  exact fun hc => h ((String.isEmpty_iff _).mp hc)

theorem dbGet_dbSet_self (db : Db) (id : Nat) (b b' : Bet) (h : dbGet db id = some b) :
    dbGet (dbSet db id b') id = some b' := by
  induction db with
  | nil => simp [dbGet] at h
  | cons e tl ih =>
    by_cases he : e.1 = id
    · simp [dbGet, dbSet, List.find?_cons, he]
    · have hp : (decide (e.1 = id)) = false := decide_eq_false he
      simp only [dbGet, List.find?_cons, hp] at h
      simp only [dbGet, dbSet, List.map_cons, if_neg he, List.find?_cons, hp]
      exact ih h

/-- Every key stored in `db` is at most `freshId db - 1`. -/
theorem key_lt_freshId (db : Db) (e : Nat × Bet) (he : e ∈ db) : e.1 < freshId db := by
  unfold freshId
  induction db with
  | nil => cases he
  | cons hd tl ih =>
    simp only [List.foldr_cons]
    rcases List.mem_cons.mp he with h | h
    · subst h
      exact Nat.lt_succ_of_le (Nat.le_max_left _ _)
    · have h1 := ih h
      have h2 : List.foldr (fun e m => max e.1 m) 0 tl
          ≤ max hd.1 (List.foldr (fun e m => max e.1 m) 0 tl) := Nat.le_max_right _ _
      omega

theorem dbGet_append_fresh (db : Db) (b : Bet) :
    dbGet (db ++ [(freshId db, b)]) (freshId db) = some b := by
  unfold dbGet
  rw [List.find?_append]
  have h1 : List.find? (fun e => decide (e.1 = freshId db)) db = none := by
    rw [List.find?_eq_none]
    intro x hx
    simp only [decide_eq_true_eq]
    exact Nat.ne_of_lt (key_lt_freshId db x hx)
  simp [h1, List.find?_cons]

/-- Scenario checks from the spec (§8). -/
theorem derive_scenarios :
    generate_description .player_prop (some "LAL") (some "LeBron James") (some .points)
      = "LeBron James-points" ∧
    generate_description .team_prop (some "BOS") none (some .points) = "BOS-points" ∧
    generate_description .spread (some "MIL") none none = "MIL-spread" ∧
    generate_description .player_prop (some "LAL") none (some .points) = "LAL" ∧
    generate_description .player_prop none none none = "Unknown" := by
  refine ⟨by decide, by decide, by decide, by decide, by decide⟩

/-! ## Claim theorems -/

/-- C1: `generate_description` returns the result of the ordered six-rule
chain, first match wins: (1) player_prop with non-empty player_name and
prop_type gives `"{player_name}-{prop_type}"` with the prop type in its
short enumeration-value form; (2) team_prop with non-empty team and
prop_type gives `"{team}-{prop_type}"`; (3) spread/moneyline with
non-empty team gives `"{team}-{bet_type}"`; (4) else a non-empty
player_name alone; (5) else a non-empty team alone; (6) else `"Unknown"`. -/
theorem C1_derive_rule_chain (bet_type : BetType) (team player_name : Option String)
    (prop_type : Option PropType) :
    generate_description bet_type team player_name prop_type
      = spec_derive bet_type team player_name prop_type := by
  unfold generate_description spec_derive
  simp only [pyTruthyStr_eq_getD, pyTruthyStr_map_value, map_value_getD_ne_iff]

/-- C5: `generate_description` is a pure total function: for every
combination of bet type and optional fields, including all-absent, it
returns a non-empty string. -/
theorem C5_derive_total_nonempty (bet_type : BetType) (team player_name : Option String)
    (prop_type : Option PropType) :
    generate_description bet_type team player_name prop_type ≠ "" :=
  generate_description_ne_empty bet_type team player_name prop_type

/-- C10: a `Bet` constructed with `description` absent or empty is
assigned a non-empty description by the constructor's own model-level
rules: player_prop with non-empty player_name gives the player name alone;
team_prop with non-empty team gives the team; spread with non-empty team
gives `"{team} {prop_line}"`; moneyline with non-empty team gives the
team; otherwise the team when non-empty, else `"Unknown"`. -/
theorem C10_model_constructor_rules (d : Bet) (h : pyTruthyStr d.description = false) :
    (Bet.init d).description = some d.generate_description_model ∧
    d.generate_description_model ≠ "" ∧
    (d.bet_type = .player_prop → d.player_name.getD "" ≠ "" →
      d.generate_description_model = d.player_name.getD "") ∧
    (d.bet_type = .team_prop → d.team ≠ "" → d.generate_description_model = d.team) ∧
    (d.bet_type = .spread → d.team ≠ "" →
      d.generate_description_model = d.team ++ " " ++ pyStr d.prop_line) ∧
    (d.bet_type = .moneyline → d.team ≠ "" → d.generate_description_model = d.team) ∧
    (¬(d.bet_type = .player_prop ∧ d.player_name.getD "" ≠ "") →
      ¬(d.bet_type ≠ .player_prop ∧ d.team ≠ "") →
      d.generate_description_model = if d.team ≠ "" then d.team else "Unknown") := by
  refine ⟨by simp [Bet.init, h], ?_, ?_, ?_, ?_, ?_, ?_⟩
  · unfold Bet.generate_description_model
    split_ifs with g1 g2 g3 g4 g5
    · exact (pyTruthyStr_eq_getD _).mp g1.2
    · exact not_isEmpty_ne _ g2.2
    · exact str_append_ne_empty_left _ _ (str_append_ne_empty _ " " (by decide))
    · exact not_isEmpty_ne _ g4.2
    · decide
    · exact not_isEmpty_ne _ g5
  · intro hbt hpn
    unfold Bet.generate_description_model
    rw [if_pos ⟨hbt, (pyTruthyStr_eq_getD _).mpr hpn⟩]
  · intro hbt ht
    have hte : d.team.isEmpty = false := by
      rw [Bool.eq_false_iff]; exact ne_not_isEmpty _ ht
    simp [Bet.generate_description_model, hbt, hte]
  · intro hbt ht
    have hte : d.team.isEmpty = false := by
      rw [Bool.eq_false_iff]; exact ne_not_isEmpty _ ht
    simp [Bet.generate_description_model, hbt, hte]
  · intro hbt ht
    have hte : d.team.isEmpty = false := by
      rw [Bool.eq_false_iff]; exact ne_not_isEmpty _ ht
    simp [Bet.generate_description_model, hbt, hte]
  · intro hno1 hno2
    rcases hbt : d.bet_type with _ | _ | _ | _
    · have hpn : d.player_name.getD "" = "" := by
        by_contra hc; exact hno1 ⟨hbt, hc⟩
      have hpf : pyTruthyStr d.player_name = false := by
        rw [Bool.eq_false_iff]
        intro hc; exact (pyTruthyStr_eq_getD _).mp hc hpn
      simp [Bet.generate_description_model, hbt, hpf, String.isEmpty_iff]
    · have ht : d.team = "" := by
        by_contra hc; exact hno2 ⟨by simp [hbt], hc⟩
      have he : ("" : String).isEmpty = true := rfl
      simp [Bet.generate_description_model, hbt, ht, he]
    · have ht : d.team = "" := by
        by_contra hc; exact hno2 ⟨by simp [hbt], hc⟩
      have he : ("" : String).isEmpty = true := rfl
      simp [Bet.generate_description_model, hbt, ht, he]
    · have ht : d.team = "" := by
        by_contra hc; exact hno2 ⟨by simp [hbt], hc⟩
      have he : ("" : String).isEmpty = true := rfl
      simp [Bet.generate_description_model, hbt, ht, he]

/-- Witness for C10 at a concrete construction: a spread record with no
description gets one assigned by the model rules. -/
theorem C10_model_constructor_rules_witness :
    (Bet.init sampleSpreadInit).description = some sampleSpreadInit.generate_description_model :=
  (C10_model_constructor_rules sampleSpreadInit (by decide)).1

theorem create_bet_description (db : Db) (p : BetCreate) :
    (create_bet db p).2.description =
      if pyTruthyStr p.description = true then p.description
      else some (generate_description p.bet_type (some p.team) p.player_name p.prop_type) := by
  by_cases hd : pyTruthyStr p.description = true
  · simp [create_bet, Bet.init, hd]
  · simp [create_bet, Bet.init, hd, pyTruthyStr_some_generate]

theorem replace_bet_description (db : Db) (id : Nat) (p : BetCreate) (b b' : Bet) (db' : Db)
    (h : dbGet db id = some b) (hr : replace_bet db id p = .ok (b', db')) :
    b'.description = (if pyTruthyStr p.description = true then p.description
      else some (generate_description p.bet_type (some p.team) p.player_name p.prop_type)) ∧
    db' = dbSet db id b' := by
  simp only [replace_bet, h] at hr
  injection hr with hr1
  injection hr1 with hb hdb
  subst hb
  subst hdb
  exact ⟨rfl, rfl⟩

/-- C2: a patch containing at least one description-affecting field and no
`description` persists a description recomputed by `generate_description`
from each affecting field's patched value where supplied, else the
record's pre-update value. -/
theorem C2_patch_recompute (db : Db) (id : Nat) (b : Bet) (u : BetUpdate)
    (hget : dbGet db id = some b)
    (haff : u.bet_type.isSome = true ∨ u.team.isSome = true ∨
      u.player_name.isSome = true ∨ u.prop_type.isSome = true)
    (hdesc : u.description = none) :
    ∃ b', update_bet db id u = .ok (b', dbSet db id b') ∧
      dbGet (dbSet db id b') id = some b' ∧
      b'.description = some (generate_description (u.bet_type.getD b.bet_type)
        (some (u.team.getD b.team)) (u.player_name.getD b.player_name)
        (u.prop_type.getD b.prop_type)) := by
  refine ⟨{ applyUpdate b u with description := some (generate_description
    (u.bet_type.getD b.bet_type) (some (u.team.getD b.team))
    (u.player_name.getD b.player_name) (u.prop_type.getD b.prop_type)) }, ?_, ?_, rfl⟩
  · simp only [update_bet, hget]
    rw [if_pos ⟨haff, hdesc⟩]
    rfl
  · exact dbGet_dbSet_self db id b _ hget

/-- Witness for C2: patching only the player name on a stored player prop
recomputes the description from the new name and the stored prop type. -/
theorem C2_patch_recompute_witness :
    ∃ b', update_bet sampleDb 1 davisPatch = .ok (b', dbSet sampleDb 1 b') ∧
      dbGet (dbSet sampleDb 1 b') 1 = some b' ∧
      b'.description = some "Anthony Davis-points" := by
  obtain ⟨b', h1, h2, h3⟩ := C2_patch_recompute sampleDb 1 sampleBet davisPatch rfl
    (Or.inr (Or.inr (Or.inl rfl))) rfl
  exact ⟨b', h1, h2, by rw [h3]; rfl⟩

/-- C6: a create or full-replace payload with a non-empty description
persists exactly that string, whatever the other fields are. -/
theorem C6_explicit_description_wins (db : Db) (id : Nat) (p : BetCreate) (b b' : Bet)
    (db' : Db) (hd : pyTruthyStr p.description = true) :
    (create_bet db p).2.description = p.description ∧
    dbGet (create_bet db p).1 (freshId db) = some (create_bet db p).2 ∧
    (dbGet db id = some b → replace_bet db id p = .ok (b', db') →
      b'.description = p.description ∧ dbGet db' id = some b') := by
  refine ⟨by rw [create_bet_description, if_pos hd], ?_, ?_⟩
  · exact dbGet_append_fresh db _
  · intro hget hr
    obtain ⟨h1, h2⟩ := replace_bet_description db id p b b' db' hget hr
    refine ⟨by rw [h1, if_pos hd], ?_⟩
    subst h2
    exact dbGet_dbSet_self db id b b' hget

/-- Witness for C6: creating and replacing with `customCreate` both keep
its explicit description. -/
theorem C6_explicit_description_wins_witness :
    (create_bet sampleDb customCreate).2.description = some "Custom label" ∧
    replacedCustomBet.description = some "Custom label" ∧
    dbGet [(1, replacedCustomBet)] 1 = some replacedCustomBet := by
  have h := C6_explicit_description_wins sampleDb 1 customCreate sampleBet replacedCustomBet
    [(1, replacedCustomBet)] rfl
  exact ⟨h.1, (h.2.2 rfl rfl).1, (h.2.2 rfl rfl).2⟩

/-- C7 as stated is false: a patch whose payload contains none of the four
description-affecting fields can still change the stored description, by
setting `description` itself. -/
theorem C7_counterexample :
    customDescPatch.bet_type = none ∧ customDescPatch.team = none ∧
    customDescPatch.player_name = none ∧ customDescPatch.prop_type = none ∧
    update_bet sampleDb 1 customDescPatch = .ok (sampleBetCustomDesc, [(1, sampleBetCustomDesc)]) ∧
    sampleBetCustomDesc.description ≠ sampleBet.description := by
  refine ⟨rfl, rfl, rfl, rfl, rfl, by decide⟩

/-- C7 (amended): a patch containing none of the description-affecting
fields and not containing `description` itself leaves the stored
description untouched; in particular patching only result, payout, notes
or actual_value never changes it. -/
theorem C7_patch_frame (db : Db) (id : Nat) (u : BetUpdate) (b : Bet)
    (hget : dbGet db id = some b)
    (hno : u.bet_type = none ∧ u.team = none ∧ u.player_name = none ∧ u.prop_type = none)
    (hdesc : u.description = none) :
    ∃ b', update_bet db id u = .ok (b', dbSet db id b') ∧
      b'.description = b.description := by
  refine ⟨applyUpdate b u, ?_, ?_⟩
  · simp only [update_bet, hget]
    rw [if_neg]
    intro hc
    rcases hc.1 with h | h | h | h <;>
      simp [hno.1, hno.2.1, hno.2.2.1, hno.2.2.2] at h
  · show (applyUpdate b u).description = b.description
    simp [applyUpdate, hdesc]

/-- Witness for C7: patching only the result leaves the description as it
was. -/
theorem C7_patch_frame_witness :
    ∃ b', update_bet sampleDb 1 resultPatch = .ok (b', dbSet sampleDb 1 b') ∧
      b'.description = sampleBet.description :=
  C7_patch_frame sampleDb 1 resultPatch sampleBet rfl ⟨rfl, rfl, rfl, rfl⟩ rfl

/-- C8: every operation addressing an id with no stored record reports a
404 with the human-readable message "Bet not found" and leaves the store
unchanged. -/
theorem C8_not_found (db : Db) (id : Nat) (u : BetUpdate) (p : BetCreate)
    (h : dbGet db id = none) :
    get_bet db id = .error notFound ∧
    update_bet db id u = .error notFound ∧
    replace_bet db id p = .error notFound ∧
    delete_bet db id = .error notFound ∧
    notFound.status = 404 ∧ notFound.detail = "Bet not found" ∧
    dbAfter (update_bet db id u) db = db ∧
    dbAfter (replace_bet db id p) db = db ∧
    dbAfter (delete_bet db id) db = db := by
  simp [get_bet, update_bet, replace_bet, delete_bet, dbAfter, h, notFound]

/-- Witness for C8 on an empty store: every operation 404s and the store
stays empty. -/
theorem C8_not_found_witness :
    get_bet ([] : Db) 1 = .error notFound ∧
    update_bet ([] : Db) 1 resultPatch = .error notFound ∧
    replace_bet ([] : Db) 1 sampleCreate = .error notFound ∧
    delete_bet ([] : Db) 1 = .error notFound := by
  have h := C8_not_found ([] : Db) 1 resultPatch sampleCreate rfl
  exact ⟨h.1, h.2.1, h.2.2.1, h.2.2.2.1⟩

/-- C3 as stated is false: the non-empty-description invariant is not
preserved by every patch — a patch supplying `description` as the explicit
empty string persists an empty description on a well-formed record. -/
theorem C3_counterexample :
    pyTruthyStr sampleBet.description = true ∧
    update_bet sampleDb 1 blankDescPatch
      = .ok (sampleBetBlankDesc, [(1, sampleBetBlankDesc)]) ∧
    sampleBetBlankDesc.description = some "" ∧
    pyTruthyStr sampleBetBlankDesc.description = false :=
  ⟨rfl, rfl, rfl, rfl⟩

/-- C3 (amended): every persisted description is non-empty after create
and after full replace, and a patch preserves the invariant provided its
payload does not set `description` to an empty or null value; a patch that
does supplies that falsy value verbatim (see the counterexample). -/
theorem C3_description_nonempty (db : Db) (id : Nat) (p : BetCreate) (u : BetUpdate)
    (b b' : Bet) (db' : Db) :
    pyTruthyStr (create_bet db p).2.description = true ∧
    (dbGet db id = some b → replace_bet db id p = .ok (b', db') →
      pyTruthyStr b'.description = true) ∧
    (dbGet db id = some b → pyTruthyStr b.description = true →
      (∀ d0, u.description = some d0 → pyTruthyStr d0 = true) →
      update_bet db id u = .ok (b', db') → pyTruthyStr b'.description = true) := by
  refine ⟨?_, ?_, ?_⟩
  · rw [create_bet_description]
    split_ifs with h
    · exact h
    · exact pyTruthyStr_some_generate _ _ _ _
  · intro hget hr
    obtain ⟨h1, _⟩ := replace_bet_description db id p b b' db' hget hr
    rw [h1]
    split_ifs with h
    · exact h
    · exact pyTruthyStr_some_generate _ _ _ _
  · intro hget hbt hud hupd
    simp only [update_bet, hget] at hupd
    by_cases hc : (u.bet_type.isSome = true ∨ u.team.isSome = true ∨
        u.player_name.isSome = true ∨ u.prop_type.isSome = true) ∧ u.description = none
    · rw [if_pos hc] at hupd
      injection hupd with h1
      injection h1 with hb hdb
      subst hb
      exact pyTruthyStr_some_generate _ _ _ _
    · rw [if_neg hc] at hupd
      injection hupd with h1
      injection h1 with hb hdb
      subst hb
      show pyTruthyStr ((applyUpdate b u).description) = true
      cases hu : u.description with
      | none => simpa [applyUpdate, hu] using hbt
      | some d0 =>
        have := hud d0 hu
        simpa [applyUpdate, hu] using this

/-- Witness for C3 (amended) on concrete create, replace and patch runs. -/
theorem C3_description_nonempty_witness :
    pyTruthyStr (create_bet sampleDb sampleCreate).2.description = true ∧
    pyTruthyStr replacedSampleBet.description = true ∧
    pyTruthyStr sampleBetWin.description = true := by
  have h1 := C3_description_nonempty sampleDb 1 sampleCreate resultPatch sampleBet
    replacedSampleBet [(1, replacedSampleBet)]
  have h2 := C3_description_nonempty sampleDb 1 sampleCreate resultPatch sampleBet
    sampleBetWin [(1, sampleBetWin)]
  exact ⟨h1.1, h1.2.1 rfl rfl,
    h2.2.2 rfl rfl (fun d0 hd0 => Option.noConfusion hd0) rfl⟩

/-- C4 as stated is false: on patch, a `description` supplied as the
explicit empty string is not treated as "not supplied" — no derivation
runs and the empty string is persisted. -/
theorem C4_counterexample :
    blankDescTeamPatch.description = some (some "") ∧
    update_bet sampleDb 1 blankDescTeamPatch
      = .ok (sampleBetBlankDescTeam, [(1, sampleBetBlankDescTeam)]) ∧
    sampleBetBlankDescTeam.description = some "" ∧
    sampleBetBlankDescTeam.description
      ≠ some (generate_description sampleBetBlankDescTeam.bet_type
          (some sampleBetBlankDescTeam.team) sampleBetBlankDescTeam.player_name
          sampleBetBlankDescTeam.prop_type) :=
  ⟨rfl, rfl, rfl, by decide⟩

/-- C4 (amended): for create and full replace, supplying `description` as
the explicit empty string is treated exactly as if it were absent — the
whole operation behaves identically and the persisted description is
non-empty; for patch, an explicitly supplied description (the empty string
included) is persisted verbatim and suppresses derivation. -/
theorem C4_empty_description (db : Db) (id : Nat) (p : BetCreate) (u : BetUpdate)
    (b' : Bet) (db' : Db) :
    (p.description = some "" →
      create_bet db p = create_bet db { p with description := none } ∧
      pyTruthyStr (create_bet db p).2.description = true) ∧
    (p.description = some "" →
      replace_bet db id p = replace_bet db id { p with description := none }) ∧
    (u.description = some (some "") → update_bet db id u = .ok (b', db') →
      b'.description = some "") := by
  refine ⟨?_, ?_, ?_⟩
  · intro hd
    constructor
    · unfold create_bet
      rw [hd]
      rfl
    · rw [create_bet_description, hd, if_neg (by decide)]
      exact pyTruthyStr_some_generate _ _ _ _
  · intro hd
    unfold replace_bet
    cases hm : dbGet db id with
    | none => rfl
    | some bet =>
      rw [hd]
      rfl
  · intro hd hupd
    cases hm : dbGet db id with
    | none =>
      simp only [update_bet, hm] at hupd
      exact Except.noConfusion hupd
    | some bet =>
      simp only [update_bet, hm] at hupd
      rw [if_neg (fun hc => by rw [hd] at hc; exact Option.noConfusion hc.2)] at hupd
      injection hupd with h1
      injection h1 with hb hdb
      subst hb
      show (applyUpdate bet u).description = some ""
      simp [applyUpdate, hd]

/-- Witness for C4 (amended): concrete create with an empty-string
description equals the description-less create, and the concrete patch
persists the empty string verbatim. -/
theorem C4_empty_description_witness :
    create_bet sampleDb blankCreate
      = create_bet sampleDb { blankCreate with description := none } ∧
    replace_bet sampleDb 1 blankCreate
      = replace_bet sampleDb 1 { blankCreate with description := none } ∧
    sampleBetBlankDescTeam.description = some "" := by
  have h := C4_empty_description sampleDb 1 blankCreate blankDescTeamPatch
    sampleBetBlankDescTeam [(1, sampleBetBlankDescTeam)]
  exact ⟨(h.1 rfl).1, h.2.1 rfl, h.2.2 rfl rfl⟩

theorem pyRound2_zero : pyRound2 0 = 0 := by
  norm_num [pyRound2]

theorem win_rate_round_comm (w l : Nat) :
    pyRound2 (if w + l > 0 then (w : Rat) / ((w + l : Nat) : Rat) * 100 else 0)
      = if w + l = 0 then (0 : Rat)
        else pyRound2 ((w : Rat) / ((w + l : Nat) : Rat) * 100) := by
  rcases Nat.eq_zero_or_pos (w + l) with h0 | h0
  · rw [h0]
    simp [pyRound2_zero]
  · rw [if_pos h0, if_neg (Nat.pos_iff_ne_zero.mp h0)]

theorem filter_and_comm {α : Type} (l : List α) (p q : α → Prop)
    [DecidablePred p] [DecidablePred q] :
    List.filter (fun a => decide (p a ∧ q a)) l
      = List.filter (fun a => decide (q a) && decide (p a)) l := by
  have h : (fun a => decide (p a ∧ q a)) = fun a => decide (q a) && decide (p a) :=
    funext fun a => by rw [Bool.decide_and, Bool.and_comm]
  rw [h]

/-- C9: each `win_rate` of the summary — overall, player-prop group,
all-other group — is `wins / (wins + losses) * 100` rounded to two decimal
places, `0` when `wins + losses = 0`, where wins and losses count only
`win` and `loss` results (push, pending, cancelled excluded). -/
theorem C9_win_rate (db : Db) :
    (get_bet_summary db).win_rate = spec_win_rate (List.map Prod.snd db) ∧
    (get_bet_summary db).player_bets.win_rate = spec_win_rate
      (List.filter (fun b => decide (b.bet_type = BetType.player_prop))
        (List.map Prod.snd db)) ∧
    (get_bet_summary db).team_bets.win_rate = spec_win_rate
      (List.filter (fun b => decide (b.bet_type ≠ BetType.player_prop))
        (List.map Prod.snd db)) := by
  refine ⟨?_, ?_, ?_⟩
  · unfold get_bet_summary spec_win_rate
    simp only [List.countP_eq_length_filter]
    exact win_rate_round_comm _ _
  · unfold get_bet_summary spec_win_rate
    simp only [List.countP_eq_length_filter, List.filter_filter]
    rw [filter_and_comm (List.map Prod.snd db)
        (fun b => b.bet_type = BetType.player_prop) (fun b => b.result = BetResult.win),
      filter_and_comm (List.map Prod.snd db)
        (fun b => b.bet_type = BetType.player_prop) (fun b => b.result = BetResult.loss)]
    exact win_rate_round_comm _ _
  · unfold get_bet_summary spec_win_rate
    simp only [List.countP_eq_length_filter, List.filter_filter]
    rw [filter_and_comm (List.map Prod.snd db)
        (fun b => b.bet_type ≠ BetType.player_prop) (fun b => b.result = BetResult.win),
      filter_and_comm (List.map Prod.snd db)
        (fun b => b.bet_type ≠ BetType.player_prop) (fun b => b.result = BetResult.loss)]
    exact win_rate_round_comm _ _

end NbaBets
